import Mathlib

/-
Verification of the data-analysis pipeline in src/app.py: row normalization
(clean_numeric, process_data), per-category aggregation and chart generation
(generate_charts), and payload assembly (upload_file).

Embedding conventions:
- A raw table cell is either missing (pandas NaN) or text; pandas renders a
  missing cell as the text "nan" when passed through str(...). Numeric cells
  are represented by their textual rendering.
- Text is modelled over the ASCII fragment: Char.isDigit and String.toLower
  stand for the Python methods str.isdigit and str.lower, which agree with
  them on ASCII text.
- Python floats are modelled by exact rationals. The builtin float(string)
  is modelled by parsePyFloat, which follows the Python grammar restricted
  to the alphabet produced by the cleaning filter (digits, dot, minus):
  an optional minus sign, then integer digits, an optional dot and fraction
  digits, with at least one digit in total. A string outside the grammar
  (two dots, an interior minus) makes float(...) raise, modelled as none.
  IEEE-754 overflow of float(string) is tracked through the exact value:
  any decimal string whose exact magnitude is at least 2 ^ 1024 is out of
  double range and parses to infinity in Python (the actual rounding cutoff
  is even lower).
- Exceptions are modelled with Option/Except: a per-row failure in
  process_data is an Option none (the row is skipped), the schema check is
  the error branch of an Except, and the matplotlib calls inside the single
  try/except of generate_charts are abstracted as an oracle (Plotter) whose
  none result stands for a raised rendering exception.
-/

set_option maxRecDepth 100000

namespace PainelApp

/-- A raw cell of the uploaded table: missing (pandas NaN) or text. -/
inductive Cell where
  | na : Cell
  | str (s : String) : Cell
deriving DecidableEq

/-- pd.isna on one cell (src/app.py lines 83, 107, 109). -/
def pdIsna : Cell → Bool
  | .na => true
  | .str _ => false

/-- Python str(...) on one cell; str of NaN is the text "nan". -/
def pyStr : Cell → String
  | .na => "nan"
  | .str s => s

/-- Value of a list of decimal digit characters read left to right. -/
def digitsVal (l : List Char) : Nat :=
  l.foldl (fun a c => a * 10 + (c.toNat - 48)) 0

/-- Python float(string) on strings over the cleaned alphabet
(digits, dot, minus): optional minus sign, integer digits, optional dot and
fraction digits, at least one digit in total, nothing else. Returns the
exact rational value, or none when Python float(...) raises ValueError. -/
def parsePyFloat (s : String) : Option Rat :=
  let cs := s.data
  let isNeg : Bool := cs.head? == some '-'
  let body := if isNeg then cs.tail else cs
  let ip := body.takeWhile Char.isDigit
  let rest := body.dropWhile Char.isDigit
  let mk : List Char → List Char → Option Rat := fun ipart fpart =>
    if ipart.isEmpty && fpart.isEmpty then none
    else
      let mag : Rat :=
        (digitsVal ipart : Rat) + (digitsVal fpart : Rat) / ((10 : Rat) ^ fpart.length)
      some (if isNeg then -mag else mag)
  if rest.isEmpty then mk ip []
  else if rest.head? == some '.' && (rest.tail.dropWhile Char.isDigit).isEmpty then
    mk ip (rest.tail.takeWhile Char.isDigit)
  else none

/-- The character filter of clean_numeric (src/app.py line 87): keep only
digits, the decimal dot and the minus sign of str(value). -/
def cleanedText (value : Cell) : String :=
  String.mk ((pyStr value).data.filter (fun c => c.isDigit || c == '.' || c == '-'))

/-- clean_numeric (src/app.py lines 81-90): 0 for a missing value; otherwise
filter str(value) to digits, dot and minus; 0 for an empty filtered string;
otherwise float(...) with the except-handler mapping a parse failure to 0. -/
def clean_numeric (value : Cell) : Rat :=
  if pdIsna value then 0
  else
    let cleaned := cleanedText value
    if cleaned.data.isEmpty then 0
    else
      match parsePyFloat cleaned with
      | some q => q
      | none => 0

/-- One normalized record (the dict built in src/app.py lines 106-111). -/
structure Record where
  localidade : String
  dimensao : String
  indicador : String
  valor : Rat
deriving DecidableEq

/-- Substring search on character lists: does pat occur contiguously in the
second list. Models the Python operator (pat in text). -/
def containsSub (pat : List Char) : List Char → Bool
  | [] => pat.isEmpty
  | c :: t => pat.isPrefixOf (c :: t) || containsSub pat t

/-- The category derivation of src/app.py line 108:
Negativo when "neg" occurs in str(cell).lower(), Positivo otherwise. -/
def classifyDim (c : Cell) : String :=
  if containsSub "neg".data ((pyStr c).toLower).data then "Negativo" else "Positivo"

/-- The per-row try-block of src/app.py lines 102-112: row[3] is read first
for clean_numeric, then columns 0, 1, 2 build the dict; an out-of-range
access raises, which the per-row except turns into a skip (none). -/
def buildItem (row : List Cell) : Option Record :=
  match row.get? 3 with
  | none => none
  | some c3 =>
    match row.get? 0, row.get? 1, row.get? 2 with
    | some c0, some c1, some c2 =>
        some { localidade := if pdIsna c0 then "N/A" else pyStr c0
             , dimensao := classifyDim c1
             , indicador := if pdIsna c2 then "N/A" else pyStr c2
             , valor := clean_numeric c3 }
    | _, _, _ => none

/-- The parsed upload: a column count (len(df.columns)) and the rows
iterated by df.iterrows(). -/
structure Table where
  ncols : Nat
  rows : List (List Cell)

/-- Message of the ValueError raised by the schema check (src/app.py line 99). -/
def schemaErrorMsg : String := "O arquivo deve conter pelo menos 4 colunas"

/-- process_data (src/app.py lines 93-117): the global column-count check,
then the per-row loop where a failing row is skipped. -/
def process_data (t : Table) : Except String (List Record) :=
  if t.ncols < 4 then Except.error schemaErrorMsg
  else Except.ok (t.rows.filterMap buildItem)

/-- The charts dict returned by generate_charts. -/
structure Charts where
  dimension_chart : String
  value_chart : String
deriving DecidableEq

/-- Counter count of Positivo records (src/app.py line 126, 130). -/
def countPos (data : List Record) : Nat :=
  (data.filter (fun r => r.dimensao == "Positivo")).length

/-- Counter count of Negativo records (src/app.py line 126, 130). -/
def countNeg (data : List Record) : Nat :=
  (data.filter (fun r => r.dimensao == "Negativo")).length

/-- positive_values (src/app.py line 144): valor of each Positivo record. -/
def positive_values (data : List Record) : List Rat :=
  (data.filter (fun r => r.dimensao == "Positivo")).map (fun r => r.valor)

/-- negative_values (src/app.py line 145): abs(valor) of each Negativo record. -/
def negative_values (data : List Record) : List Rat :=
  (data.filter (fun r => r.dimensao == "Negativo")).map (fun r => |r.valor|)

/-- sum(l) / len(l) if l else 0 (src/app.py lines 150-153). -/
def avgOrZero (l : List Rat) : Rat :=
  if l.isEmpty then 0 else l.sum / (l.length : Rat)

/-- max(l) if l else 0 (src/app.py lines 155-158); Python max folds the
binary maximum over a nonempty list. -/
def maxOrZero : List Rat → Rat
  | [] => 0
  | h :: t => t.foldl max h

/-- The external matplotlib capability, abstracted as an oracle: rendering
and encoding the pie chart from the two counts, and the bar chart from the
two averages and two maxima; none models a raised rendering exception. -/
structure Plotter where
  renderPie : Nat → Nat → Option String
  renderBars : Rat → Rat → Rat → Rat → Option String

/-- generate_charts (src/app.py lines 120-183): one try/except wraps both
chart renders in sequence; any exception reaches the single handler, which
reassigns the whole dict to two empty strings (lines 176-181). -/
def generate_charts (P : Plotter) (data : List Record) : Charts :=
  match P.renderPie (countPos data) (countNeg data) with
  | none => { dimension_chart := "", value_chart := "" }
  | some dim =>
    let pv := positive_values data
    let nv := negative_values data
    match P.renderBars (avgOrZero pv) (avgOrZero nv) (maxOrZero pv) (maxOrZero nv) with
    | none => { dimension_chart := "", value_chart := "" }
    | some val => { dimension_chart := dim, value_chart := val }

/-- A JSON-rendered value of the response: null, a string, or a number. -/
inductive JVal where
  | null : JVal
  | s (v : String) : JVal
  | num (q : Rat) : JVal
deriving DecidableEq

/-- The replace NaN-to-None rendering of one raw cell in the preview
(src/app.py line 66). -/
def cellToJVal : Cell → JVal
  | .na => .null
  | .str s => .s s

/-- The JSON rendering of one normalized record, field values in order
(localidade, dimensao, indicador, valor). -/
def recordToJRow (r : Record) : List JVal :=
  [.s r.localidade, .s r.dimensao, .s r.indicador, .num r.valor]

/-- The response_data payload assembled in src/app.py lines 65-70. -/
structure Payload where
  preview : List (List JVal)
  total_records : Nat
  analysis : List Record
  charts : Charts
deriving DecidableEq

/-- The core of upload_file (src/app.py lines 58-70): process_data, then
generate_charts, then the payload; the ValueError of the schema check
escapes to the route-level handler, modelled as the error branch. -/
def run (P : Plotter) (t : Table) : Except String Payload :=
  match process_data t with
  | .error e => .error e
  | .ok processed =>
      .ok { preview := (t.rows.take 5).map (fun row => row.map cellToJVal)
          , total_records := t.rows.length
          , analysis := processed
          , charts := generate_charts P processed }

/-! Helper lemmas about the embedded operations. -/

/-- containsSub decides exactly the contiguous-substring relation. -/
theorem containsSub_iff (pat : List Char) :
    ∀ l : List Char, containsSub pat l = true ↔ pat <:+: l
  | [] => by
      simp [containsSub, List.isEmpty_iff]
  | c :: t => by
      rw [containsSub]
      simp [Bool.or_eq_true, List.isPrefixOf_iff_prefix, containsSub_iff pat t,
        List.infix_cons_iff]

/-- The initial value is a lower bound of a left fold of max. -/
theorem le_foldl_max : ∀ (l : List Rat) (b : Rat), b ≤ l.foldl max b
  | [], b => le_refl b
  | c :: t, b => le_trans (le_max_left b c) (le_foldl_max t (max b c))

/-- A left fold of max is the initial value or one of the elements. -/
theorem foldl_max_mem : ∀ (l : List Rat) (b : Rat), l.foldl max b = b ∨ l.foldl max b ∈ l
  | [], _ => Or.inl rfl
  | c :: t, b => by
      rw [List.foldl_cons]
      rcases foldl_max_mem t (max b c) with h | h
      · rcases max_choice b c with hb | hc
        · exact Or.inl (by rw [h, hb])
        · exact Or.inr (by rw [h, hc]; exact List.mem_cons_self c t)
      · exact Or.inr (List.mem_cons_of_mem c h)

/-- Every element is bounded by a left fold of max. -/
theorem le_foldl_max_of_mem : ∀ (l : List Rat) (b x : Rat), x ∈ l → x ≤ l.foldl max b
  | [], _, x, h => absurd h (List.not_mem_nil x)
  | c :: t, b, x, h => by
      rw [List.foldl_cons]
      rcases List.mem_cons.1 h with rfl | h
      · exact le_trans (le_max_right b x) (le_foldl_max t (max b x))
      · exact le_foldl_max_of_mem t (max b c) x h

/-- On a nonempty list, maxOrZero returns one of the elements. -/
theorem maxOrZero_mem : ∀ (l : List Rat), l ≠ [] → maxOrZero l ∈ l
  | [], h => absurd rfl h
  | c :: t, _ => by
      simp only [maxOrZero]
      rcases foldl_max_mem t c with h | h
      · rw [h]; exact List.mem_cons_self c t
      · exact List.mem_cons_of_mem c h

/-- maxOrZero bounds every element of the list. -/
theorem le_maxOrZero : ∀ (l : List Rat) (x : Rat), x ∈ l → x ≤ maxOrZero l
  | [], x, h => absurd h (List.not_mem_nil x)
  | c :: t, x, h => by
      simp only [maxOrZero]
      rcases List.mem_cons.1 h with rfl | h
      · exact le_foldl_max t x
      · exact le_foldl_max_of_mem t c x h

/-- maxOrZero is invariant under permutation. -/
theorem maxOrZero_perm {l l' : List Rat} (h : l.Perm l') : maxOrZero l = maxOrZero l' := by
  rcases eq_or_ne l [] with rfl | hne
  · rw [← h.nil_eq]
  · have hne' : l' ≠ [] := by
      intro hh
      exact hne (by rw [hh] at h; exact h.eq_nil)
    exact le_antisymm
      (le_maxOrZero l' _ (h.mem_iff.1 (maxOrZero_mem l hne)))
      (le_maxOrZero l _ (h.symm.mem_iff.1 (maxOrZero_mem l' hne')))

/-- avgOrZero is invariant under permutation. -/
theorem avgOrZero_perm {l l' : List Rat} (h : l.Perm l') : avgOrZero l = avgOrZero l' := by
  rcases eq_or_ne l [] with rfl | hne
  · rw [← h.nil_eq]
  · have hne' : l' ≠ [] := by
      intro hh
      exact hne (by rw [hh] at h; exact h.eq_nil)
    simp only [avgOrZero, List.isEmpty_iff, h.sum_eq, h.length_eq]
    simp [hne, hne']

/-- A filterMap keeps the full length exactly when it succeeds everywhere. -/
theorem length_filterMap_eq_iff {α β : Type} (f : α → Option β) :
    ∀ l : List α, (l.filterMap f).length = l.length ↔ ∀ a ∈ l, (f a).isSome = true
  | [] => by simp
  | a :: t => by
      cases hf : f a with
      | none =>
          simp only [List.filterMap_cons, hf, List.length_cons]
          constructor
          · intro hh
            have hle := List.length_filterMap_le f t
            omega
          · intro hh
            have := hh a (List.mem_cons_self a t)
            rw [hf] at this
            simp at this
      | some b =>
          simp [List.filterMap_cons, hf, List.length_cons,
            length_filterMap_eq_iff f t, List.forall_mem_cons]

/-- A text cell of 400 nine digits: its cleaned numeric value is far beyond
the largest finite IEEE-754 double, about 1.8 * 10 ^ 308. -/
def nines400 : Cell := Cell.str (String.mk (List.replicate 400 '9'))

/-- clean_numeric keeps all 400 nine digits of nines400. -/
theorem clean_numeric_nines400 : clean_numeric nines400 = ((10 ^ 400 - 1 : Nat) : Rat) := by
  with_unfolding_all rfl

/-- The cleaned value of nines400 is at least 2 ^ 1024, hence out of IEEE-754
double range: Python float(...) of this digit string returns infinity. -/
theorem nines400_overflows : (2 : Rat) ^ 1024 ≤ clean_numeric nines400 := by
  rw [clean_numeric_nines400]
  have h : (2 : Nat) ^ 1024 ≤ 10 ^ 400 - 1 := by norm_num
  calc (2 : Rat) ^ 1024 = (((2 : Nat) ^ 1024 : Nat) : Rat) := by push_cast; ring
  _ ≤ ((10 ^ 400 - 1 : Nat) : Rat) := by exact_mod_cast h

/-- A row whose four accessed cells exist always builds a Record: every
conversion in the per-row dict is total. -/
theorem buildItem_isSome {row : List Cell} (h : 4 ≤ row.length) :
    (buildItem row).isSome = true := by
  unfold buildItem
  rw [List.get?_eq_get (show 3 < row.length by omega),
    List.get?_eq_get (show 0 < row.length by omega),
    List.get?_eq_get (show 1 < row.length by omega),
    List.get?_eq_get (show 2 < row.length by omega)]
  rfl

/-- A string with no characters never parses as a float. -/
theorem parsePyFloat_of_data_nil (s : String) (h : s.data = []) : parsePyFloat s = none := by
  unfold parsePyFloat
  rw [h]
  rfl

/-! Concrete fixtures used by the counterexamples and witnesses. -/

/-- A plotter whose two renders both succeed. -/
def okPlotter : Plotter :=
  { renderPie := fun _ _ => some "P", renderBars := fun _ _ _ _ => some "V" }

/-- A plotter whose pie render succeeds and whose bar render raises. -/
def pieOnlyPlotter : Plotter :=
  { renderPie := fun _ _ => some "PIE", renderBars := fun _ _ _ _ => none }

/-- A four-column table with a single all-missing row. -/
def tNaN : Table := { ncols := 4, rows := [[Cell.na, Cell.na, Cell.na, Cell.na]] }

/-- A three-column single-row table. -/
def t3one : Table := { ncols := 3, rows := [[Cell.str "a", Cell.str "b", Cell.str "c"]] }

/-- A three-column table with no rows. -/
def t3empty : Table := { ncols := 3, rows := [] }

/-- The record normalized from the all-missing row. -/
def recNApos : Record :=
  { localidade := "N/A", dimensao := "Positivo", indicador := "N/A", valor := 0 }

/-- The payload produced for tNaN under okPlotter. -/
def payNaN : Payload :=
  { preview := [[JVal.null, JVal.null, JVal.null, JVal.null]]
  , total_records := 1
  , analysis := [recNApos]
  , charts := { dimension_chart := "P", value_chart := "V" } }

/-- Running the pipeline on the all-missing one-row table. -/
theorem run_tNaN : run okPlotter tNaN = Except.ok payNaN := by
  with_unfolding_all rfl

/-- A record as in the end-to-end example of the spec (Negativo, -12.5). -/
def recSP : Record :=
  { localidade := "SP", dimensao := "Negativo", indicador := "IDH", valor := -12.5 }

/-- A record as in the end-to-end example of the spec (Positivo, 30). -/
def recRJ : Record :=
  { localidade := "RJ", dimensao := "Positivo", indicador := "PIB", valor := 30 }

/-- Modelled from IEEE-754 binary64 semantics of the Python float type: every
finite double has magnitude strictly below 2 ^ 1024, so a decimal string whose
exact value has magnitude at least 2 ^ 1024 cannot parse to a finite float —
Python float(...) returns infinity on it (the precise rounding cutoff,
2 ^ 1024 - 2 ^ 970, is lower still). -/
def fitsDouble (q : Rat) : Prop := |q| < 2 ^ 1024

/-! Claim theorems. -/

/-- C3: a table with fewer than 4 columns makes process_data fail with the
SchemaError before any row is processed (the result is the same error
whatever the rows, with no partial result), including for a single-row
three-column table; with at least 4 columns no SchemaError is raised. -/
theorem C3_schema_error : ∀ t : Table,
    ((∃ recs, process_data t = Except.ok recs) ↔ 4 ≤ t.ncols)
    ∧ (∀ t₂ : Table, t.ncols < 4 → t₂.ncols < 4 → process_data t = process_data t₂)
    ∧ process_data t3one = Except.error schemaErrorMsg := by
  intro t
  refine ⟨?_, ?_, rfl⟩
  · unfold process_data
    by_cases h : t.ncols < 4
    · simp only [if_pos h]
      constructor
      · rintro ⟨recs, hr⟩
        exact absurd hr (by simp)
      · intro hge
        omega
    · simp only [if_neg h]
      exact ⟨fun _ => by omega, fun _ => ⟨_, rfl⟩⟩
  · intro t₂ h1 h2
    unfold process_data
    rw [if_pos h1, if_pos h2]

/-- Witness for C3: the schema error at the single-row three-column table,
identical to the error at a rowless three-column table. -/
theorem C3_schema_error_witness :
    process_data t3one = process_data t3empty
    ∧ process_data t3one = Except.error schemaErrorMsg := by
  have h := C3_schema_error t3one
  exact ⟨h.2.1 t3empty (by decide) (by decide), h.2.2⟩

/-- C4: the derived category of a column-1 cell is Negativo exactly when the
lowercased text rendering contains the substring "neg", and Positivo
otherwise; it is always one of the two; "NEGATIVO" gives Negativo,
"positivo" gives Positivo, the empty text and a missing cell give Positivo. -/
theorem C4_category : ∀ c : Cell,
    (classifyDim c = "Negativo" ↔ "neg".data <:+: ((pyStr c).toLower).data)
    ∧ (classifyDim c = "Negativo" ∨ classifyDim c = "Positivo")
    ∧ classifyDim (Cell.str "NEGATIVO") = "Negativo"
    ∧ classifyDim (Cell.str "positivo") = "Positivo"
    ∧ classifyDim (Cell.str "") = "Positivo"
    ∧ classifyDim Cell.na = "Positivo" := by
  intro c
  refine ⟨?_, ?_, by with_unfolding_all rfl, by with_unfolding_all rfl,
    by with_unfolding_all rfl, by with_unfolding_all rfl⟩
  · rw [← containsSub_iff]
    unfold classifyDim
    cases h : containsSub "neg".data ((pyStr c).toLower).data
    · rw [if_neg (by simp [h])]
      constructor
      · intro hh
        exact absurd hh (by decide)
      · intro hh
        exact absurd hh (by simp)
    · rw [if_pos (by simp [h])]
      exact ⟨fun _ => rfl, fun _ => rfl⟩
  · unfold classifyDim
    cases containsSub "neg".data ((pyStr c).toLower).data
    · exact Or.inr (by simp)
    · exact Or.inl (by simp)

/-- Modelled from the spec (section 4.1): null or missing returns 0;
otherwise render to text, retain only ASCII digits, the dot and the minus
sign; an empty retained text returns 0; otherwise parse as a float, with 0
on parse failure. -/
def cleanNumericSpecModel (value : Cell) : Rat :=
  if pdIsna value then 0
  else
    let retained := (pyStr value).data.filter (fun c => c.isDigit || c == '.' || c == '-')
    if retained.isEmpty then 0
    else (parsePyFloat (String.mk retained)).getD 0

/-- C6: clean_numeric follows the specified algorithm (null gives 0, retain
digits, dot and minus, empty retained text gives 0, parse failure gives 0),
and on the documented examples: "-12.5kg" gives -12.5, "" gives 0, "abc"
gives 0, and "1.234.5" falls back to 0 without raising. -/
theorem C6_clean_numeric_algorithm :
    (∀ v : Cell, clean_numeric v = cleanNumericSpecModel v)
    ∧ clean_numeric (Cell.str "-12.5kg") = -12.5
    ∧ clean_numeric (Cell.str "") = 0
    ∧ clean_numeric (Cell.str "abc") = 0
    ∧ clean_numeric (Cell.str "1.234.5") = 0
    ∧ clean_numeric Cell.na = 0 := by
  refine ⟨?_, by with_unfolding_all rfl, by with_unfolding_all rfl,
    by with_unfolding_all rfl, by with_unfolding_all rfl, by with_unfolding_all rfl⟩
  intro v
  cases v with
  | na => rfl
  | str s =>
      unfold clean_numeric cleanNumericSpecModel cleanedText
      simp only [pdIsna, pyStr, Bool.false_eq_true, if_false]
      cases parsePyFloat (String.mk (s.data.filter (fun c => c.isDigit || c == '.' || c == '-'))) <;>
        rfl

/-- C8: a category with zero member records aggregates to average 0 and
maximum 0 (never NaN, never a divide-by-zero or empty-max fault), for the
Positivo and the Negativo category alike. -/
theorem C8_empty_category_zero : ∀ data : List Record,
    (countPos data = 0 →
      avgOrZero (positive_values data) = 0 ∧ maxOrZero (positive_values data) = 0)
    ∧ (countNeg data = 0 →
      avgOrZero (negative_values data) = 0 ∧ maxOrZero (negative_values data) = 0) := by
  intro data
  constructor
  · intro h
    have hlist : data.filter (fun r => r.dimensao == "Positivo") = [] :=
      List.length_eq_zero.mp h
    unfold positive_values
    rw [hlist]
    exact ⟨rfl, rfl⟩
  · intro h
    have hlist : data.filter (fun r => r.dimensao == "Negativo") = [] :=
      List.length_eq_zero.mp h
    unfold negative_values
    rw [hlist]
    exact ⟨rfl, rfl⟩

/-- Witness for C8 at the empty record sequence: both categories have zero
members and both aggregates are exactly 0. -/
theorem C8_empty_category_zero_witness :
    avgOrZero (positive_values []) = 0 ∧ maxOrZero (positive_values []) = 0
    ∧ avgOrZero (negative_values []) = 0 ∧ maxOrZero (negative_values []) = 0 := by
  have h := C8_empty_category_zero []
  have hp := h.1 rfl
  have hn := h.2 rfl
  exact ⟨hp.1, hp.2, hn.1, hn.2⟩

/-- C7: for a table with at least 4 columns the payload's total_records is
the raw row count of the input (skipped rows included), the analysis length
never exceeds it, and they are equal exactly when no row triggers a RowError
(every row builds a Record). -/
theorem C7_total_records : ∀ (P : Plotter) (t : Table), 4 ≤ t.ncols →
    ∃ pay : Payload, run P t = Except.ok pay
      ∧ pay.total_records = t.rows.length
      ∧ pay.analysis.length ≤ pay.total_records
      ∧ (pay.analysis.length = pay.total_records ↔
          ∀ row ∈ t.rows, (buildItem row).isSome = true) := by
  intro P t h
  have hnot : ¬ t.ncols < 4 := by omega
  unfold run process_data
  rw [if_neg hnot]
  exact ⟨_, rfl, rfl, List.length_filterMap_le buildItem t.rows,
    length_filterMap_eq_iff buildItem t.rows⟩

/-- Witness for C7 at the four-column one-row table of missing cells. -/
theorem C7_total_records_witness :
    ∃ pay : Payload, run okPlotter tNaN = Except.ok pay
      ∧ pay.total_records = tNaN.rows.length
      ∧ pay.analysis.length ≤ pay.total_records
      ∧ (pay.analysis.length = pay.total_records ↔
          ∀ row ∈ tNaN.rows, (buildItem row).isSome = true) :=
  C7_total_records okPlotter tNaN (by decide)

/-- C9: aggregation is order-insensitive: for permuted record sequences, the
per-category counts, averages and maxima coincide. -/
theorem C9_aggregation_perm : ∀ (d₁ d₂ : List Record), d₁.Perm d₂ →
    countPos d₁ = countPos d₂ ∧ countNeg d₁ = countNeg d₂
    ∧ avgOrZero (positive_values d₁) = avgOrZero (positive_values d₂)
    ∧ avgOrZero (negative_values d₁) = avgOrZero (negative_values d₂)
    ∧ maxOrZero (positive_values d₁) = maxOrZero (positive_values d₂)
    ∧ maxOrZero (negative_values d₁) = maxOrZero (negative_values d₂) := by
  intro d₁ d₂ h
  have hpf := h.filter (fun r => r.dimensao == "Positivo")
  have hnf := h.filter (fun r => r.dimensao == "Negativo")
  have hpv : (positive_values d₁).Perm (positive_values d₂) := by
    unfold positive_values
    exact hpf.map _
  have hnv : (negative_values d₁).Perm (negative_values d₂) := by
    unfold negative_values
    exact hnf.map _
  refine ⟨?_, ?_, avgOrZero_perm hpv, avgOrZero_perm hnv,
    maxOrZero_perm hpv, maxOrZero_perm hnv⟩
  · unfold countPos
    exact hpf.length_eq
  · unfold countNeg
    exact hnf.length_eq

/-- Witness for C9: swapping the two records of the documented end-to-end
example changes no aggregate. -/
theorem C9_aggregation_perm_witness :
    countPos [recSP, recRJ] = countPos [recRJ, recSP]
    ∧ countNeg [recSP, recRJ] = countNeg [recRJ, recSP]
    ∧ avgOrZero (positive_values [recSP, recRJ]) = avgOrZero (positive_values [recRJ, recSP])
    ∧ avgOrZero (negative_values [recSP, recRJ]) = avgOrZero (negative_values [recRJ, recSP])
    ∧ maxOrZero (positive_values [recSP, recRJ]) = maxOrZero (positive_values [recRJ, recSP])
    ∧ maxOrZero (negative_values [recSP, recRJ]) = maxOrZero (negative_values [recRJ, recSP]) :=
  C9_aggregation_perm [recSP, recRJ] [recRJ, recSP] (List.Perm.swap recRJ recSP [])

/-- C10: on a table with at least 4 columns whose rows each carry the four
positionally accessed cells, building a Record never raises, so the per-row
skip branch is unreachable and the analysis length equals the raw row
count. -/
theorem C10_no_rowerror : ∀ t : Table, 4 ≤ t.ncols →
    (∀ row ∈ t.rows, 4 ≤ row.length) →
    (∀ row ∈ t.rows, (buildItem row).isSome = true)
    ∧ ∃ recs : List Record, process_data t = Except.ok recs
        ∧ recs.length = t.rows.length := by
  intro t h4 hrows
  have hb : ∀ row ∈ t.rows, (buildItem row).isSome = true :=
    fun row hr => buildItem_isSome (hrows row hr)
  refine ⟨hb, ?_⟩
  have hnot : ¬ t.ncols < 4 := by omega
  unfold process_data
  rw [if_neg hnot]
  exact ⟨_, rfl, (length_filterMap_eq_iff buildItem t.rows).mpr hb⟩

/-- Witness for C10 at the four-column one-row table of missing cells. -/
theorem C10_no_rowerror_witness :
    (∀ row ∈ tNaN.rows, (buildItem row).isSome = true)
    ∧ ∃ recs : List Record, process_data tNaN = Except.ok recs
        ∧ recs.length = tNaN.rows.length :=
  C10_no_rowerror tNaN (by decide) (by decide)

/-- C1 counterexample: the claim that a failure while producing the value
chart leaves the already-produced dimension chart unchanged is false — with
a plotter whose pie render yields "PIE" and whose bar render raises, the
payload's dimension chart is the empty string, not "PIE". -/
theorem C1_counterexample :
    ¬ (∀ (P : Plotter) (data : List Record) (s : String),
        P.renderPie (countPos data) (countNeg data) = some s →
        P.renderBars (avgOrZero (positive_values data)) (avgOrZero (negative_values data))
          (maxOrZero (positive_values data)) (maxOrZero (negative_values data)) = none →
        (generate_charts P data).dimension_chart = s) := by
  intro h
  have hc := h pieOnlyPlotter [] "PIE" rfl rfl
  rw [show (generate_charts pieOnlyPlotter []).dimension_chart = "" from rfl] at hc
  exact absurd hc (by decide)

/-- C1 amended: both chart renders run inside one try/except, so a rendering
failure in either chart replaces BOTH chart images by empty strings — an
already-produced dimension chart is discarded — while the rest of the
payload (preview, total_records, analysis) is unaffected by the plotter. -/
theorem C1_failure_wipes_both : ∀ (P : Plotter) (data : List Record),
    ((P.renderPie (countPos data) (countNeg data) = none ∨
      P.renderBars (avgOrZero (positive_values data)) (avgOrZero (negative_values data))
        (maxOrZero (positive_values data)) (maxOrZero (negative_values data)) = none) →
      generate_charts P data = { dimension_chart := "", value_chart := "" })
    ∧ ∀ (Q : Plotter) (t : Table),
        (run P t).map (fun pay => (pay.preview, pay.total_records, pay.analysis)) =
        (run Q t).map (fun pay => (pay.preview, pay.total_records, pay.analysis)) := by
  intro P data
  constructor
  · intro h
    rcases h with h | h
    · simp [generate_charts, h]
    · cases hp : P.renderPie (countPos data) (countNeg data) with
      | none => simp [generate_charts, hp]
      | some dim => simp [generate_charts, hp, h]
  · intro Q t
    unfold run
    cases hpd : process_data t <;> simp [Except.map]

/-- Witness for C1 amended: under the plotter whose bar render raises, the
whole charts dict degrades to two empty strings. -/
theorem C1_failure_wipes_both_witness :
    generate_charts pieOnlyPlotter [] = { dimension_chart := "", value_chart := "" } :=
  (C1_failure_wipes_both pieOnlyPlotter []).1 (Or.inr rfl)

/-- C2 counterexample: the claim that preview equals the first 5 normalized
records is false — on the four-column table whose single row is all missing,
the preview row is four nulls while the normalized record renders as
"N/A", "Positivo", "N/A", 0. -/
theorem C2_counterexample :
    ¬ (∀ (P : Plotter) (t : Table) (pay : Payload), 4 ≤ t.ncols →
        run P t = Except.ok pay →
        pay.preview = (pay.analysis.take 5).map recordToJRow) := by
  intro h
  have hc := h okPlotter tNaN payNaN (by decide) run_tNaN
  exact absurd hc (by decide)

/-- C2 amended: preview is the head of the RAW input table — the first 5 raw
rows with missing values rendered as null — not the first 5 normalized
records of analysis. -/
theorem C2_preview_is_raw_head : ∀ (P : Plotter) (t : Table), 4 ≤ t.ncols →
    ∃ pay : Payload, run P t = Except.ok pay
      ∧ pay.preview = (t.rows.take 5).map (fun row => row.map cellToJVal)
      ∧ pay.preview.length = min 5 t.rows.length := by
  intro P t h
  have hnot : ¬ t.ncols < 4 := by omega
  unfold run process_data
  rw [if_neg hnot]
  exact ⟨_, rfl, rfl, by simp⟩

/-- Witness for C2 amended at the four-column one-row table. -/
theorem C2_preview_is_raw_head_witness :
    ∃ pay : Payload, run okPlotter tNaN = Except.ok pay
      ∧ pay.preview = (tNaN.rows.take 5).map (fun row => row.map cellToJVal)
      ∧ pay.preview.length = min 5 tNaN.rows.length :=
  C2_preview_is_raw_head okPlotter tNaN (by decide)

/-- C5 counterexample: the claim that clean_numeric always returns a finite
float is false — the 400-nines text cell cleans to the exact value
10 ^ 400 - 1, whose magnitude reaches 2 ^ 1024, beyond every finite IEEE-754
double: Python float(...) of that digit string is infinity. -/
theorem C5_counterexample : ¬ (∀ c : Cell, fitsDouble (clean_numeric c)) := by
  intro h
  have hc := h nines400
  unfold fitsDouble at hc
  have habs : clean_numeric nines400 ≤ |clean_numeric nines400| := le_abs_self _
  exact absurd (lt_of_le_of_lt (le_trans nines400_overflows habs) hc) (lt_irrefl _)

/-- C5 amended: clean_numeric is total and never raises — missing input
returns 0, a failed or empty parse returns 0, a successful parse returns the
parsed value — but the returned float is not always finite: a long enough
digit string exceeds double range and parses to infinity. -/
theorem C5_total_no_raise : ∀ c : Cell,
    (pdIsna c = true → clean_numeric c = 0)
    ∧ (pdIsna c = false → parsePyFloat (cleanedText c) = none → clean_numeric c = 0)
    ∧ (∀ q : Rat, pdIsna c = false → parsePyFloat (cleanedText c) = some q →
        clean_numeric c = q) := by
  intro c
  refine ⟨?_, ?_, ?_⟩
  · intro h
    simp [clean_numeric, h]
  · intro h hp
    simp [clean_numeric, h, hp]
  · intro q h hp
    by_cases he : (cleanedText c).data = []
    · rw [parsePyFloat_of_data_nil _ he] at hp
      exact absurd hp (by simp)
    · simp [clean_numeric, h, hp, List.isEmpty_iff, he]

/-- Witness for C5 amended: "1.234.5" retains a text that fails to parse and
clean_numeric falls back to 0 without raising. -/
theorem C5_total_no_raise_witness : clean_numeric (Cell.str "1.234.5") = 0 :=
  (C5_total_no_raise (Cell.str "1.234.5")).2.1 rfl (by with_unfolding_all rfl)

end PainelApp
